import Mathlib

/-!
# A shallow embedding of the mcp-image-downloader tool server

This file embeds `src/index.ts` of the `qpd-v/mcp-image-downloader`
repository: the argument type guards, the two tool handlers
(`handleDownloadImage`, `handleOptimizeImage`), the call dispatcher and
the tool listing.  Side-effecting steps (directory creation, HTTP fetch,
file write, sharp `toFile`) are embedded by passing an explicit "world"
that records the outcome of each step; handlers return the `ToolResult`
together with the trace of effects they performed, in order.  External
collaborators that are not code of this repository (Node `path.dirname`,
the sharp resize/encode semantics) are modelled from their documented
behaviour where a claim needs them, and are clearly marked.
-/

set_option autoImplicit false

namespace ImageDownloader

/-- A model of the JavaScript values an argument bag can contain.
Numbers are modelled as `Int` (the claims only involve integral values;
`NaN` is not modelled).  Objects are association lists of fields. -/
inductive JSValue where
  | str (s : String)
  | num (n : Int)
  | boolean (b : Bool)
  | null
  | undefined
  | obj (fields : List (String × JSValue))

namespace JSValue

/-- JavaScript property access `a.f` on a value: the first binding of the
field in an object, `undefined` otherwise. -/
def getField : JSValue → String → JSValue
  | obj fields, f =>
    match fields.find? (fun p => p.1 == f) with
    | some p => p.2
    | none => undefined
  | _, _ => undefined

/-- JavaScript truthiness (`!v` is `!jsTruthy v`). -/
def jsTruthy : JSValue → Bool
  | str s => !(s == "")
  | num n => !(n == 0)
  | boolean b => b
  | null => false
  | undefined => false
  | obj _ => true

/-- `typeof v === 'object'` (true for objects and for `null`). -/
def typeofIsObject : JSValue → Bool
  | obj _ => true
  | null => true
  | _ => false

/-- `typeof v === 'string'`. -/
def typeofIsString : JSValue → Bool
  | str _ => true
  | _ => false

/-- `typeof v === 'number'`. -/
def typeofIsNumber : JSValue → Bool
  | num _ => true
  | _ => false

/-- `v === undefined`. -/
def isUndefined : JSValue → Bool
  | undefined => true
  | _ => false

end JSValue

open JSValue

/-- `isDownloadImageArgs` from `src/index.ts`:
`!args || typeof args !== 'object'` rejects, then both `url` and
`outputPath` must be of string type. -/
def isDownloadImageArgs (args : JSValue) : Bool :=
  if !args.jsTruthy || !args.typeofIsObject then false
  else
    typeofIsString (args.getField "url") &&
    typeofIsString (args.getField "outputPath")

/-- `isOptimizeImageArgs` from `src/index.ts`: `inputPath` and
`outputPath` must be strings; `width`, `height`, `quality` must each be
`undefined` or of number type. -/
def isOptimizeImageArgs (args : JSValue) : Bool :=
  if !args.jsTruthy || !args.typeofIsObject then false
  else
    typeofIsString (args.getField "inputPath") &&
    typeofIsString (args.getField "outputPath") &&
    (isUndefined (args.getField "width") || typeofIsNumber (args.getField "width")) &&
    (isUndefined (args.getField "height") || typeofIsNumber (args.getField "height")) &&
    (isUndefined (args.getField "quality") || typeofIsNumber (args.getField "quality"))

/-- The `DownloadImageArgs` interface. -/
structure DownloadImageArgs where
  url : String
  outputPath : String
  deriving Repr, DecidableEq

/-- The `OptimizeImageArgs` interface (`width`, `height`, `quality`
optional). -/
structure OptimizeImageArgs where
  inputPath : String
  outputPath : String
  width : Option Int
  height : Option Int
  quality : Option Int
  deriving Repr, DecidableEq

/-- Read a string field of a validated bag (in TypeScript the guard only
narrows the type; the same object is passed on). -/
def asString : JSValue → String
  | .str s => s
  | _ => ""

/-- Read an optional number field of a validated bag. -/
def asNumOpt : JSValue → Option Int
  | .num n => some n
  | _ => none

/-- The typed view of a bag that passed `isDownloadImageArgs`. -/
def toDownloadArgs (args : JSValue) : DownloadImageArgs :=
  { url := asString (args.getField "url")
    outputPath := asString (args.getField "outputPath") }

/-- The typed view of a bag that passed `isOptimizeImageArgs`. -/
def toOptimizeArgs (args : JSValue) : OptimizeImageArgs :=
  { inputPath := asString (args.getField "inputPath")
    outputPath := asString (args.getField "outputPath")
    width := asNumOpt (args.getField "width")
    height := asNumOpt (args.getField "height")
    quality := asNumOpt (args.getField "quality") }

/-- Modelled from the behaviour of the Node `path` collaborator (an
external library, not code of this repository): POSIX `path.dirname`.
It returns the input up to the last separator that is followed by a
non-separator character (ignoring trailing separators), `"/"` or `"."`
when there is no such separator, and `"//"` for paths such as
`"//a"`. -/
def dirname (p : String) : String :=
  let cs := p.data
  if cs.isEmpty then "."
  else
    let hasRoot := cs.head? == some '/'
    let isEnd (i : Nat) : Bool :=
      decide (1 ≤ i) && (cs.get? i == some '/') &&
        (cs.drop (i + 1)).any (fun c => c != '/')
    let e := (List.range cs.length).foldl
      (fun acc i => if isEnd i then some i else acc) none
    match e with
    | none => if hasRoot then "/" else "."
    | some i => if hasRoot && i == 1 then "//" else String.mk (cs.take i)

/-- A thrown JavaScript value, as the catch blocks of the handlers see
it: either an `Error` carrying a message, or any other value. -/
inductive Thrown where
  | err (msg : String)
  | nonError
  deriving Repr, DecidableEq

/-- `error instanceof Error ? error.message : 'Unknown error occurred'`. -/
def errorMessageOf : Thrown → String
  | .err m => m
  | .nonError => "Unknown error occurred"

/-- One item of a `ToolResult`'s `content` array. -/
structure TextContent where
  type : String
  text : String
  deriving Repr, DecidableEq

/-- The result payload a handler returns to the host: `content` plus the
optional `isError` flag (absent on success). -/
structure ToolResult where
  content : List TextContent
  isError : Option Bool
  deriving Repr, DecidableEq

/-- A successful `ToolResult` as both handlers build it: one text item,
no `isError` field. -/
def successResult (text : String) : ToolResult :=
  { content := [{ type := "text", text := text }], isError := none }

/-- An error `ToolResult` as both catch blocks build it: one text item
and `isError: true`. -/
def errorResult (text : String) : ToolResult :=
  { content := [{ type := "text", text := text }], isError := some true }

/-- The response mode requested from the HTTP collaborator
(`responseType: 'arraybuffer'`). -/
inductive RespType where
  | arraybuffer
  deriving Repr, DecidableEq

/-- The fixed browser-like `User-Agent` header of the download handler. -/
def browserUserAgent : String :=
  "Mozilla/5.0 (Windows NT 10.0; Win64; x64) AppleWebKit/537.36 (KHTML, like Gecko) Chrome/91.0.4472.124 Safari/537.36"

/-- The resize options the optimize handler passes to `sharp.resize`:
the (possibly absent) target width and height, `fit: 'inside'` and
`withoutEnlargement: true`. -/
structure ResizeOpts where
  width : Option Int
  height : Option Int
  fit : String
  withoutEnlargement : Bool
  deriving Repr, DecidableEq

/-- The sharp pipeline the optimize handler builds before `toFile`:
source path, optional resize step, optional JPEG/WebP encoder quality. -/
structure SharpPipeline where
  inputPath : String
  resize : Option ResizeOpts
  jpegQuality : Option Int
  webpQuality : Option Int
  deriving Repr, DecidableEq

/-- The side-effecting operations the handlers perform, in the order the
trace records them.  `ensureDir` is `fs-extra.ensureDir` (recursive,
idempotent directory creation); `writeFile` overwrites the whole file
with the given bytes; `sharpToFile` decodes the pipeline's input,
applies it and writes the encoded result to the given path. -/
inductive Effect where
  | ensureDir (dir : String)
  | httpGet (url : String) (userAgent : String) (timeoutMs : Nat) (respType : RespType)
  | writeFile (path : String) (data : List Nat)
  | sharpToFile (pipeline : SharpPipeline) (outputPath : String)
  deriving Repr, DecidableEq

/-- The environment of one `handleDownloadImage` run: the outcome of
each side-effecting step, were it reached (a successful fetch yields the
response body bytes). -/
structure DownloadWorld where
  ensureDirResult : Except Thrown Unit
  httpResult : Except Thrown (List Nat)
  writeResult : Except Thrown Unit
  deriving Repr

/-- `handleDownloadImage` from `src/index.ts`: ensure the output
directory exists, GET the URL with the fixed User-Agent, a 30000 ms
timeout and binary response mode, write the payload, and return a
success message naming `outputPath`; any thrown failure is caught and
turned into an `isError` result embedding the error message.  Returns
the `ToolResult` together with the trace of steps performed. -/
def handleDownloadImage (args : DownloadImageArgs) (w : DownloadWorld) :
    ToolResult × List Effect :=
  let dirEff := Effect.ensureDir (dirname args.outputPath)
  match w.ensureDirResult with
  | .error t =>
      (errorResult ("Failed to download image: " ++ errorMessageOf t), [dirEff])
  | .ok _ =>
    let getEff := Effect.httpGet args.url browserUserAgent 30000 RespType.arraybuffer
    match w.httpResult with
    | .error t =>
        (errorResult ("Failed to download image: " ++ errorMessageOf t), [dirEff, getEff])
    | .ok data =>
      let writeEff := Effect.writeFile args.outputPath data
      match w.writeResult with
      | .error t =>
          (errorResult ("Failed to download image: " ++ errorMessageOf t),
           [dirEff, getEff, writeEff])
      | .ok _ =>
          (successResult ("Successfully downloaded image to " ++ args.outputPath),
           [dirEff, getEff, writeEff])

/-- JavaScript truthiness of an optional number field of a validated
bag: `undefined` and `0` are falsy (`NaN` is not modelled). -/
def jsOptTruthy : Option Int → Bool
  | some n => !(n == 0)
  | none => false

/-- The sharp pipeline `handleOptimizeImage` builds: starting from
`sharp(inputPath)`, a resize step with `fit: 'inside'` and
`withoutEnlargement: true` is added when `args.width || args.height` is
truthy, and JPEG and WebP encoder quality are set when `args.quality`
is truthy. -/
def optimizePipeline (args : OptimizeImageArgs) : SharpPipeline :=
  let base : SharpPipeline :=
    { inputPath := args.inputPath, resize := none,
      jpegQuality := none, webpQuality := none }
  let withResize :=
    if jsOptTruthy args.width || jsOptTruthy args.height then
      { base with resize := some ⟨args.width, args.height, "inside", true⟩ }
    else base
  if jsOptTruthy args.quality then
    { withResize with jpegQuality := args.quality, webpQuality := args.quality }
  else withResize

/-- The environment of one `handleOptimizeImage` run: the outcome of
directory creation and of the `toFile` step (which reads, transforms
and writes). -/
structure OptimizeWorld where
  ensureDirResult : Except Thrown Unit
  toFileResult : Except Thrown Unit
  deriving Repr

/-- `handleOptimizeImage` from `src/index.ts`: ensure the output
directory exists, build the sharp pipeline and write it to `outputPath`,
returning a success message naming `outputPath`; any thrown failure is
caught and turned into an `isError` result embedding the error
message. -/
def handleOptimizeImage (args : OptimizeImageArgs) (w : OptimizeWorld) :
    ToolResult × List Effect :=
  let dirEff := Effect.ensureDir (dirname args.outputPath)
  match w.ensureDirResult with
  | .error t =>
      (errorResult ("Failed to optimize image: " ++ errorMessageOf t), [dirEff])
  | .ok _ =>
    let fileEff := Effect.sharpToFile (optimizePipeline args) args.outputPath
    match w.toFileResult with
    | .error t =>
        (errorResult ("Failed to optimize image: " ++ errorMessageOf t), [dirEff, fileEff])
    | .ok _ =>
        (successResult ("Successfully optimized image to " ++ args.outputPath),
         [dirEff, fileEff])

/-- The protocol error codes the dispatcher uses (`McpError` codes from
the SDK). -/
inductive McpErrorCode where
  | invalidParams
  | methodNotFound
  deriving Repr, DecidableEq

/-- A protocol-level error (`throw new McpError(code, message)` in the
call handler): the transport reports it to the host instead of a
`ToolResult`. -/
structure McpError where
  code : McpErrorCode
  message : String
  deriving Repr, DecidableEq

/-- The `CallToolRequestSchema` handler from `src/index.ts`: switch on
the tool name; for a known tool, validate the argument bag with the
tool's type guard and run the handler, throwing an `InvalidParams`
protocol error when validation fails (before any handler side effect);
for any other name, throw a `MethodNotFound` protocol error carrying the
name.  `Except.error` is a thrown protocol error (no `ToolResult`, no
effects); `Except.ok` is the handler's result and trace. -/
def callTool (name : String) (args : JSValue) (dw : DownloadWorld) (ow : OptimizeWorld) :
    Except McpError (ToolResult × List Effect) :=
  if name == "download_image" then
    if isDownloadImageArgs args then
      .ok (handleDownloadImage (toDownloadArgs args) dw)
    else
      .error ⟨.invalidParams, "Invalid arguments for download_image"⟩
  else if name == "optimize_image" then
    if isOptimizeImageArgs args then
      .ok (handleOptimizeImage (toOptimizeArgs args) ow)
    else
      .error ⟨.invalidParams, "Invalid arguments for optimize_image"⟩
  else
    .error ⟨.methodNotFound, "Unknown tool: " ++ name⟩

/-- One property of a declarative input schema: its field name, JSON
type, description and (for `quality`) numeric bounds. -/
structure PropSchema where
  name : String
  type : String
  description : String
  minimum : Option Int
  maximum : Option Int
  deriving Repr, DecidableEq

/-- A tool's declarative input schema. -/
structure InputSchema where
  type : String
  properties : List PropSchema
  required : List String
  deriving Repr, DecidableEq

/-- A tool descriptor as returned by the listing handler. -/
structure ToolDescr where
  name : String
  description : String
  inputSchema : InputSchema
  deriving Repr, DecidableEq

/-- The `download_image` descriptor from the `ListToolsRequestSchema`
handler. -/
def downloadToolDescr : ToolDescr :=
  { name := "download_image"
    description := "Download an image from a URL to a specified path"
    inputSchema :=
      { type := "object"
        properties :=
          [ { name := "url", type := "string",
              description := "URL of the image to download",
              minimum := none, maximum := none },
            { name := "outputPath", type := "string",
              description := "Path where to save the image",
              minimum := none, maximum := none } ]
        required := ["url", "outputPath"] } }

/-- The `optimize_image` descriptor from the `ListToolsRequestSchema`
handler, with the declared quality bounds 1 to 100. -/
def optimizeToolDescr : ToolDescr :=
  { name := "optimize_image"
    description := "Create an optimized version of an image"
    inputSchema :=
      { type := "object"
        properties :=
          [ { name := "inputPath", type := "string",
              description := "Path to the input image",
              minimum := none, maximum := none },
            { name := "outputPath", type := "string",
              description := "Path where to save the optimized image",
              minimum := none, maximum := none },
            { name := "width", type := "number",
              description := "Target width (maintains aspect ratio if only width is specified)",
              minimum := none, maximum := none },
            { name := "height", type := "number",
              description := "Target height (maintains aspect ratio if only height is specified)",
              minimum := none, maximum := none },
            { name := "quality", type := "number",
              description := "JPEG/WebP quality (1-100)",
              minimum := some 1, maximum := some 100 } ]
        required := ["inputPath", "outputPath"] } }

/-- The fixed tool catalogue of the `ListToolsRequestSchema` handler. -/
def toolCatalogue : List ToolDescr :=
  [downloadToolDescr, optimizeToolDescr]

/-- A request the server can receive: list the tools, or call a tool.
A call request carries the worlds that determine its side-effecting
steps' outcomes. -/
inductive Request where
  | listTools
  | call (name : String) (args : JSValue) (dw : DownloadWorld) (ow : OptimizeWorld)

/-- A response the server produces: the tool listing, a normally
returned `ToolResult` with its effect trace, or a protocol-level
error. -/
inductive Response where
  | listing (tools : List ToolDescr)
  | result (r : ToolResult × List Effect)
  | protocolError (e : McpError)

/-- Handle one request.  The server object holds no mutable state that
the handlers read or write, so the response is a function of the request
alone. -/
def handleRequest : Request → Response
  | .listTools => .listing toolCatalogue
  | .call name args dw ow =>
    match callTool name args dw ow with
    | .ok r => .result r
    | .error e => .protocolError e

/-- The server's request loop: one request at a time, in order. -/
def serve (reqs : List Request) : List Response :=
  reqs.map handleRequest

/-- Modelled from the spec (the image-codec collaborator is an external
library, not code of this repository): resize-to-fit semantics for
`fit: 'inside'` with `withoutEnlargement: true` — scale the source so it
fits inside the bounding box given by the provided dimension(s),
preserving aspect ratio, never scaling up past original size.  Target
dimensions are clamped to `Nat` (`Int.toNat`); scaled dimensions round
down. -/
def fitInsideDims (srcW srcH : Nat) (w h : Option Int) : Nat × Nat :=
  match w, h with
  | none, none => (srcW, srcH)
  | some w, none =>
    if srcW ≤ w.toNat then (srcW, srcH)
    else (w.toNat, srcH * w.toNat / srcW)
  | none, some h =>
    if srcH ≤ h.toNat then (srcW, srcH)
    else (srcW * h.toNat / srcH, h.toNat)
  | some w, some h =>
    if w.toNat * srcH ≤ h.toNat * srcW then
      if srcW ≤ w.toNat then (srcW, srcH)
      else (w.toNat, srcH * w.toNat / srcW)
    else
      if srcH ≤ h.toNat then (srcW, srcH)
      else (srcW * h.toNat / srcH, h.toNat)

/-- Modelled from the spec: the dimensions of the image a pipeline
writes, given the source dimensions — unchanged when the pipeline has no
resize step, and resize-to-fit otherwise. -/
def sharpOutputDims (srcW srcH : Nat) (p : SharpPipeline) : Nat × Nat :=
  match p.resize with
  | none => (srcW, srcH)
  | some ro => fitInsideDims srcW srcH ro.width ro.height

/-- The output formats a pipeline can be encoded to. -/
inductive ImgFormat where
  | jpeg
  | webp
  | png
  | other
  deriving Repr, DecidableEq

/-- Modelled from the spec: the encoder quality setting that affects the
written file for a given output format — the JPEG setting for JPEG
output, the WebP setting for WebP output, and none otherwise (quality
has no effect when the output is not encoded as JPEG or WebP). -/
def qualityEffective (fmt : ImgFormat) (p : SharpPipeline) : Option Int :=
  match fmt with
  | .jpeg => p.jpegQuality
  | .webp => p.webpQuality
  | _ => none

/-- The directory an effect created, if it is a directory creation. -/
def Effect.createdDir : Effect → Option String
  | .ensureDir d => some d
  | _ => none

/-- Whether an effect is an HTTP request. -/
def Effect.isHttpGet : Effect → Bool
  | .httpGet _ _ _ _ => true
  | _ => false

/-- Whether an effect is a sharp `toFile` operation. -/
def Effect.isSharpToFile : Effect → Bool
  | .sharpToFile _ _ => true
  | _ => false

/-- The directories an effect trace created (via `ensureDir`). -/
def dirsCreated (trace : List Effect) : List String :=
  trace.filterMap Effect.createdDir

/-- The number of HTTP requests an effect trace performed. -/
def httpGetCount (trace : List Effect) : Nat :=
  (trace.filter Effect.isHttpGet).length

/-- The number of sharp `toFile` operations an effect trace performed. -/
def sharpToFileCount (trace : List Effect) : Nat :=
  (trace.filter Effect.isSharpToFile).length

/-- The outcome of the first failing step of a download run, if any
(`none` when all three steps succeed). -/
def downloadFirstFailure (w : DownloadWorld) : Option Thrown :=
  match w.ensureDirResult with
  | .error t => some t
  | .ok _ =>
    match w.httpResult with
    | .error t => some t
    | .ok _ =>
      match w.writeResult with
      | .error t => some t
      | .ok _ => none

/-- The outcome of the first failing step of an optimize run, if any. -/
def optimizeFirstFailure (w : OptimizeWorld) : Option Thrown :=
  match w.ensureDirResult with
  | .error t => some t
  | .ok _ =>
    match w.toFileResult with
    | .error t => some t
    | .ok _ => none

/-- A failing download run yields the catch block's error result and
performs at most one HTTP request. -/
theorem handleDownloadImage_failure_eq (args : DownloadImageArgs) (w : DownloadWorld)
    (t : Thrown) (hf : downloadFirstFailure w = some t) :
    (handleDownloadImage args w).1 =
      errorResult ("Failed to download image: " ++ errorMessageOf t) ∧
    httpGetCount (handleDownloadImage args w).2 ≤ 1 := by
  obtain ⟨ed, hr, wr⟩ := w
  cases ed <;> cases hr <;> cases wr <;>
    simp_all [handleDownloadImage, downloadFirstFailure, httpGetCount,
      List.filter, Effect.isHttpGet]

/-- A failing optimize run yields the catch block's error result and
performs at most one `toFile` operation. -/
theorem handleOptimizeImage_failure_eq (args : OptimizeImageArgs) (w : OptimizeWorld)
    (t : Thrown) (hf : optimizeFirstFailure w = some t) :
    (handleOptimizeImage args w).1 =
      errorResult ("Failed to optimize image: " ++ errorMessageOf t) ∧
    sharpToFileCount (handleOptimizeImage args w).2 ≤ 1 := by
  obtain ⟨ed, tf⟩ := w
  cases ed <;> cases tf <;>
    simp_all [handleOptimizeImage, optimizeFirstFailure, sharpToFileCount,
      List.filter, Effect.isSharpToFile]

/-- The resize step of the pipeline is present exactly when
`args.width || args.height` is truthy; the quality step does not alter
it. -/
theorem optimizePipeline_resize (args : OptimizeImageArgs) :
    (optimizePipeline args).resize =
      if jsOptTruthy args.width || jsOptTruthy args.height then
        some ⟨args.width, args.height, "inside", true⟩
      else none := by
  unfold optimizePipeline
  by_cases hq : jsOptTruthy args.quality <;>
    by_cases hr : (jsOptTruthy args.width || jsOptTruthy args.height) = true <;>
      simp [hq, hr]

/-- The JPEG quality of the pipeline is set exactly when `args.quality`
is truthy. -/
theorem optimizePipeline_jpegQuality (args : OptimizeImageArgs) :
    (optimizePipeline args).jpegQuality =
      if jsOptTruthy args.quality then args.quality else none := by
  unfold optimizePipeline
  by_cases hq : jsOptTruthy args.quality <;>
    by_cases hr : (jsOptTruthy args.width || jsOptTruthy args.height) = true <;>
      simp [hq, hr]

/-- The WebP quality of the pipeline is set exactly when `args.quality`
is truthy. -/
theorem optimizePipeline_webpQuality (args : OptimizeImageArgs) :
    (optimizePipeline args).webpQuality =
      if jsOptTruthy args.quality then args.quality else none := by
  unfold optimizePipeline
  by_cases hq : jsOptTruthy args.quality <;>
    by_cases hr : (jsOptTruthy args.width || jsOptTruthy args.height) = true <;>
      simp [hq, hr]

/-- Bounds of the modelled resize-to-fit: the output never exceeds the
source dimensions nor any provided target dimension. -/
theorem fitInsideDims_bounds (srcW srcH : Nat) (w h : Option Int)
    (hW : 0 < srcW) (hH : 0 < srcH) :
    (fitInsideDims srcW srcH w h).1 ≤ srcW ∧
    (fitInsideDims srcW srcH w h).2 ≤ srcH ∧
    (∀ wv, w = some wv → (fitInsideDims srcW srcH w h).1 ≤ wv.toNat) ∧
    (∀ hv, h = some hv → (fitInsideDims srcW srcH w h).2 ≤ hv.toNat) := by
  cases w with
  | none =>
    cases h with
    | none =>
      refine ⟨Nat.le_refl _, Nat.le_refl _, ?_, ?_⟩ <;> intro v hv <;> cases hv
    | some hv =>
      simp only [fitInsideDims]
      by_cases hc : srcH ≤ hv.toNat
      · rw [if_pos hc]
        refine ⟨Nat.le_refl _, Nat.le_refl _, ?_, ?_⟩
        · intro v hveq; cases hveq
        · intro v hveq; cases hveq; exact hc
      · rw [if_neg hc]
        have hlt : hv.toNat < srcH := Nat.lt_of_not_le hc
        have hws : srcW * hv.toNat / srcH ≤ srcW := by
          refine Nat.div_le_of_le_mul' ?_
          calc srcW * hv.toNat ≤ srcW * srcH :=
                Nat.mul_le_mul (Nat.le_refl _) (Nat.le_of_lt hlt)
            _ = srcH * srcW := Nat.mul_comm _ _
        refine ⟨hws, Nat.le_of_lt hlt, ?_, ?_⟩
        · intro v hveq; cases hveq
        · intro v hveq; cases hveq; exact Nat.le_refl _
  | some wv =>
    cases h with
    | none =>
      simp only [fitInsideDims]
      by_cases hc : srcW ≤ wv.toNat
      · rw [if_pos hc]
        refine ⟨Nat.le_refl _, Nat.le_refl _, ?_, ?_⟩
        · intro v hveq; cases hveq; exact hc
        · intro v hveq; cases hveq
      · rw [if_neg hc]
        have hlt : wv.toNat < srcW := Nat.lt_of_not_le hc
        have hhs : srcH * wv.toNat / srcW ≤ srcH := by
          refine Nat.div_le_of_le_mul' ?_
          calc srcH * wv.toNat ≤ srcH * srcW :=
                Nat.mul_le_mul (Nat.le_refl _) (Nat.le_of_lt hlt)
            _ = srcW * srcH := Nat.mul_comm _ _
        refine ⟨Nat.le_of_lt hlt, hhs, ?_, ?_⟩
        · intro v hveq; cases hveq; exact Nat.le_refl _
        · intro v hveq; cases hveq
    | some hv =>
      simp only [fitInsideDims]
      by_cases hlim : wv.toNat * srcH ≤ hv.toNat * srcW
      · rw [if_pos hlim]
        by_cases hwc : srcW ≤ wv.toNat
        · rw [if_pos hwc]
          have hhb : srcH ≤ hv.toNat := by
            have h1 : srcH * srcW ≤ hv.toNat * srcW := by
              calc srcH * srcW = srcW * srcH := Nat.mul_comm _ _
                _ ≤ wv.toNat * srcH := Nat.mul_le_mul hwc (Nat.le_refl _)
                _ ≤ hv.toNat * srcW := hlim
            exact Nat.le_of_mul_le_mul_right h1 hW
          refine ⟨Nat.le_refl _, Nat.le_refl _, ?_, ?_⟩
          · intro v hveq; cases hveq; exact hwc
          · intro v hveq; cases hveq; exact hhb
        · rw [if_neg hwc]
          have hlt : wv.toNat < srcW := Nat.lt_of_not_le hwc
          have hhs : srcH * wv.toNat / srcW ≤ srcH := by
            refine Nat.div_le_of_le_mul' ?_
            calc srcH * wv.toNat ≤ srcH * srcW :=
                  Nat.mul_le_mul (Nat.le_refl _) (Nat.le_of_lt hlt)
              _ = srcW * srcH := Nat.mul_comm _ _
          refine ⟨Nat.le_of_lt hlt, hhs, ?_, ?_⟩
          · intro v hveq; cases hveq; exact Nat.le_refl _
          · intro v hveq; cases hveq
            refine Nat.div_le_of_le_mul' ?_
            calc srcH * wv.toNat = wv.toNat * srcH := Nat.mul_comm _ _
              _ ≤ hv.toNat * srcW := hlim
              _ = srcW * hv.toNat := Nat.mul_comm _ _
      · rw [if_neg hlim]
        have hgt : hv.toNat * srcW < wv.toNat * srcH := Nat.lt_of_not_le hlim
        by_cases hhc : srcH ≤ hv.toNat
        · rw [if_pos hhc]
          have hwb : srcW ≤ wv.toNat := by
            have h1 : srcW * srcH ≤ wv.toNat * srcH := by
              calc srcW * srcH = srcH * srcW := Nat.mul_comm _ _
                _ ≤ hv.toNat * srcW := Nat.mul_le_mul hhc (Nat.le_refl _)
                _ ≤ wv.toNat * srcH := Nat.le_of_lt hgt
            exact Nat.le_of_mul_le_mul_right h1 hH
          refine ⟨Nat.le_refl _, Nat.le_refl _, ?_, ?_⟩
          · intro v hveq; cases hveq; exact hwb
          · intro v hveq; cases hveq; exact hhc
        · rw [if_neg hhc]
          have hlt : hv.toNat < srcH := Nat.lt_of_not_le hhc
          have hws : srcW * hv.toNat / srcH ≤ srcW := by
            refine Nat.div_le_of_le_mul' ?_
            calc srcW * hv.toNat ≤ srcW * srcH :=
                  Nat.mul_le_mul (Nat.le_refl _) (Nat.le_of_lt hlt)
              _ = srcH * srcW := Nat.mul_comm _ _
          refine ⟨hws, Nat.le_of_lt hlt, ?_, ?_⟩
          · intro v hveq; cases hveq
            refine Nat.div_le_of_le_mul' ?_
            calc srcW * hv.toNat = hv.toNat * srcW := Nat.mul_comm _ _
              _ ≤ wv.toNat * srcH := Nat.le_of_lt hgt
              _ = srcH * wv.toNat := Nat.mul_comm _ _
          · intro v hveq; cases hveq; exact Nat.le_refl _

/-- C2: a call to `download_image` or `optimize_image` reaches its
handler if and only if the argument bag passes the tool's type-shape
guard; when the guard fails the dispatcher throws an `InvalidParams`
protocol error before any handler side effect; the guards check types
only, accepting any string values (no URL well-formedness) and any
numeric values (no range checks). -/
theorem dispatch_validates_argument_shape :
    (∀ (bag : JSValue) (dw : DownloadWorld) (ow : OptimizeWorld),
      (isDownloadImageArgs bag = true →
        callTool "download_image" bag dw ow =
          Except.ok (handleDownloadImage (toDownloadArgs bag) dw)) ∧
      (isDownloadImageArgs bag = false →
        callTool "download_image" bag dw ow =
          Except.error ⟨McpErrorCode.invalidParams, "Invalid arguments for download_image"⟩)) ∧
    (∀ (bag : JSValue) (dw : DownloadWorld) (ow : OptimizeWorld),
      (isOptimizeImageArgs bag = true →
        callTool "optimize_image" bag dw ow =
          Except.ok (handleOptimizeImage (toOptimizeArgs bag) ow)) ∧
      (isOptimizeImageArgs bag = false →
        callTool "optimize_image" bag dw ow =
          Except.error ⟨McpErrorCode.invalidParams, "Invalid arguments for optimize_image"⟩)) ∧
    (∀ u o : String,
      isDownloadImageArgs
        (JSValue.obj [("url", JSValue.str u), ("outputPath", JSValue.str o)]) = true) ∧
    (∀ (i o : String) (wd ht q : Int),
      isOptimizeImageArgs
        (JSValue.obj [("inputPath", JSValue.str i), ("outputPath", JSValue.str o),
          ("width", JSValue.num wd), ("height", JSValue.num ht),
          ("quality", JSValue.num q)]) = true) := by
  refine ⟨?_, ?_, ?_, ?_⟩
  · intro bag dw ow
    constructor <;> intro h <;> simp [callTool, h]
  · intro bag dw ow
    constructor <;> intro h <;> simp [callTool, h]
  · intro u o
    rfl
  · intro i o wd ht q
    rfl

/-- C2 witness: a well-shaped bag is dispatched to the download handler
and a malformed bag (missing `outputPath`) is rejected with
`InvalidParams`. -/
theorem dispatch_validates_argument_shape_witness :
    callTool "download_image"
        (JSValue.obj [("url", JSValue.str "http://x/a.png"), ("outputPath", JSValue.str "./out/a.png")])
        ⟨Except.ok (), Except.ok [7], Except.ok ()⟩ ⟨Except.ok (), Except.ok ()⟩ =
      Except.ok (handleDownloadImage
        (toDownloadArgs (JSValue.obj [("url", JSValue.str "http://x/a.png"), ("outputPath", JSValue.str "./out/a.png")]))
        ⟨Except.ok (), Except.ok [7], Except.ok ()⟩) ∧
    callTool "download_image" (JSValue.obj [("url", JSValue.str "http://x/a.png")])
        ⟨Except.ok (), Except.ok [7], Except.ok ()⟩ ⟨Except.ok (), Except.ok ()⟩ =
      Except.error ⟨McpErrorCode.invalidParams, "Invalid arguments for download_image"⟩ := by
  exact ⟨(dispatch_validates_argument_shape.1 _ _ _).1 (by decide),
    (dispatch_validates_argument_shape.1 _ _ _).2 (by decide)⟩

/-- C3: calling any tool name other than `download_image` and
`optimize_image` throws a `MethodNotFound` protocol error whose message
carries the unknown name; no handler runs and no `ToolResult` is
produced. -/
theorem unknown_tool_method_not_found :
    ∀ (name : String) (bag : JSValue) (dw : DownloadWorld) (ow : OptimizeWorld),
      name ≠ "download_image" → name ≠ "optimize_image" →
      callTool name bag dw ow =
        Except.error ⟨McpErrorCode.methodNotFound, "Unknown tool: " ++ name⟩ ∧
      (∃ pre post, "Unknown tool: " ++ name = pre ++ (name ++ post)) ∧
      (∀ r, callTool name bag dw ow ≠ Except.ok r) := by
  intro name bag dw ow h1 h2
  have hcall : callTool name bag dw ow =
      Except.error ⟨McpErrorCode.methodNotFound, "Unknown tool: " ++ name⟩ := by
    simp [callTool, h1, h2]
  refine ⟨hcall, ⟨"Unknown tool: ", "", by simp⟩, ?_⟩
  intro r hr
  rw [hcall] at hr
  exact Except.noConfusion hr

/-- C3 witness: calling `delete_image` yields the `MethodNotFound`
protocol error carrying the name. -/
theorem unknown_tool_method_not_found_witness :
    callTool "delete_image" (JSValue.obj []) ⟨Except.ok (), Except.ok [], Except.ok ()⟩
        ⟨Except.ok (), Except.ok ()⟩ =
      Except.error ⟨McpErrorCode.methodNotFound, "Unknown tool: delete_image"⟩ :=
  (unknown_tool_method_not_found "delete_image" (JSValue.obj [])
    ⟨Except.ok (), Except.ok [], Except.ok ()⟩ ⟨Except.ok (), Except.ok ()⟩
    (by decide) (by decide)).1

/-- C4: a successful download run performs exactly, and in this order,
directory creation for the parent of `outputPath`, a single GET with the
fixed browser User-Agent, a 30000 ms timeout and binary response mode,
and a write of the whole payload to `outputPath`; it returns a
`ToolResult` without `isError` whose text contains `outputPath`. -/
theorem download_success_effects_in_order :
    ∀ (args : DownloadImageArgs) (w : DownloadWorld) (data : List Nat),
      w.ensureDirResult = Except.ok () →
      w.httpResult = Except.ok data →
      w.writeResult = Except.ok () →
      handleDownloadImage args w =
        (successResult ("Successfully downloaded image to " ++ args.outputPath),
          [Effect.ensureDir (dirname args.outputPath),
           Effect.httpGet args.url browserUserAgent 30000 RespType.arraybuffer,
           Effect.writeFile args.outputPath data]) ∧
      (handleDownloadImage args w).1.isError = none ∧
      (∃ pre post,
        (handleDownloadImage args w).1 = successResult (pre ++ (args.outputPath ++ post))) := by
  intro args w data h1 h2 h3
  obtain ⟨ed, hr, wr⟩ := w
  simp only at h1 h2 h3
  subst h1 h2 h3
  refine ⟨rfl, rfl, ⟨"Successfully downloaded image to ", "", by simp [handleDownloadImage]⟩⟩

/-- C4 witness: a concrete successful run writes the fetched bytes to
`./out/a.png` after creating `./out`. -/
theorem download_success_effects_in_order_witness :
    handleDownloadImage ⟨"https://example.com/valid.png", "./out/a.png"⟩
        ⟨Except.ok (), Except.ok [1, 2, 3], Except.ok ()⟩ =
      (successResult "Successfully downloaded image to ./out/a.png",
        [Effect.ensureDir "./out",
         Effect.httpGet "https://example.com/valid.png" browserUserAgent 30000 RespType.arraybuffer,
         Effect.writeFile "./out/a.png" [1, 2, 3]]) := by
  have h := download_success_effects_in_order ⟨"https://example.com/valid.png", "./out/a.png"⟩
    ⟨Except.ok (), Except.ok [1, 2, 3], Except.ok ()⟩ [1, 2, 3] rfl rfl rfl
  rw [h.1]
  refine congrArg (fun p => (successResult "Successfully downloaded image to ./out/a.png", p)) ?_
  decide

/-- C7 counterexample: a `download_image` bag whose `url` and
`outputPath` are both the empty string passes validation and the call is
dispatched to the handler, which runs its full side-effecting sequence —
the request is not rejected. -/
theorem empty_string_rejection_counterexample :
    isDownloadImageArgs
      (JSValue.obj [("url", JSValue.str ""), ("outputPath", JSValue.str "")]) = true ∧
    callTool "download_image"
        (JSValue.obj [("url", JSValue.str ""), ("outputPath", JSValue.str "")])
        ⟨Except.ok (), Except.ok [], Except.ok ()⟩ ⟨Except.ok (), Except.ok ()⟩ =
      Except.ok (successResult "Successfully downloaded image to ",
        [Effect.ensureDir ".",
         Effect.httpGet "" browserUserAgent 30000 RespType.arraybuffer,
         Effect.writeFile "" []]) := by
  constructor
  · decide
  · rfl

/-- C7 amended: validation of `download_image` requires only that `url`
and `outputPath` be of string type; empty strings pass and the call
reaches the handler, instead of being rejected. -/
theorem empty_strings_pass_validation :
    ∀ (u o : String) (dw : DownloadWorld) (ow : OptimizeWorld),
      isDownloadImageArgs
        (JSValue.obj [("url", JSValue.str u), ("outputPath", JSValue.str o)]) = true ∧
      callTool "download_image"
          (JSValue.obj [("url", JSValue.str u), ("outputPath", JSValue.str o)]) dw ow =
        Except.ok (handleDownloadImage ⟨u, o⟩ dw) := by
  intro u o dw ow
  exact ⟨rfl, rfl⟩

/-- C1: for every validated `DownloadRequest` or `OptimizeRequest`, if
any step of the handler's side-effecting sequence fails, the handler
catches the failure and returns — normally, through the dispatcher, as
`Except.ok` and never a protocol-level error — a `ToolResult` whose
`isError` is true and whose single text item embeds the underlying
error's message; the trace shows no retry (at most one fetch, at most
one `toFile`). -/
theorem tool_failure_returns_isError_result :
    (∀ (bag : JSValue) (dw : DownloadWorld) (ow : OptimizeWorld) (t : Thrown),
      isDownloadImageArgs bag = true →
      downloadFirstFailure dw = some t →
      callTool "download_image" bag dw ow =
        Except.ok (handleDownloadImage (toDownloadArgs bag) dw) ∧
      (handleDownloadImage (toDownloadArgs bag) dw).1 =
        errorResult ("Failed to download image: " ++ errorMessageOf t) ∧
      (handleDownloadImage (toDownloadArgs bag) dw).1.isError = some true ∧
      (∀ m, t = Thrown.err m →
        (handleDownloadImage (toDownloadArgs bag) dw).1.content =
          [⟨"text", "Failed to download image: " ++ m⟩]) ∧
      httpGetCount (handleDownloadImage (toDownloadArgs bag) dw).2 ≤ 1) ∧
    (∀ (bag : JSValue) (dw : DownloadWorld) (ow : OptimizeWorld) (t : Thrown),
      isOptimizeImageArgs bag = true →
      optimizeFirstFailure ow = some t →
      callTool "optimize_image" bag dw ow =
        Except.ok (handleOptimizeImage (toOptimizeArgs bag) ow) ∧
      (handleOptimizeImage (toOptimizeArgs bag) ow).1 =
        errorResult ("Failed to optimize image: " ++ errorMessageOf t) ∧
      (handleOptimizeImage (toOptimizeArgs bag) ow).1.isError = some true ∧
      (∀ m, t = Thrown.err m →
        (handleOptimizeImage (toOptimizeArgs bag) ow).1.content =
          [⟨"text", "Failed to optimize image: " ++ m⟩]) ∧
      sharpToFileCount (handleOptimizeImage (toOptimizeArgs bag) ow).2 ≤ 1) := by
  constructor
  · intro bag dw ow t hv hf
    have hfe := handleDownloadImage_failure_eq (toDownloadArgs bag) dw t hf
    refine ⟨by simp [callTool, hv], hfe.1, ?_, ?_, hfe.2⟩
    · rw [hfe.1]; rfl
    · intro m hm
      subst hm
      rw [hfe.1]
      rfl
  · intro bag dw ow t hv hf
    have hfe := handleOptimizeImage_failure_eq (toOptimizeArgs bag) ow t hf
    refine ⟨by simp [callTool, hv], hfe.1, ?_, ?_, hfe.2⟩
    · rw [hfe.1]; rfl
    · intro m hm
      subst hm
      rw [hfe.1]
      rfl

/-- C1 witness: a timed-out download and an unreadable optimize input
both yield the caught error result. -/
theorem tool_failure_returns_isError_result_witness :
    (handleDownloadImage (toDownloadArgs (JSValue.obj
        [("url", JSValue.str "http://bad.example/x.png"),
         ("outputPath", JSValue.str "./out/x.png")]))
      ⟨Except.ok (), Except.error (Thrown.err "timeout of 30000ms exceeded"),
       Except.ok ()⟩).1 =
      errorResult "Failed to download image: timeout of 30000ms exceeded" ∧
    (handleOptimizeImage (toOptimizeArgs (JSValue.obj
        [("inputPath", JSValue.str "missing.jpg"),
         ("outputPath", JSValue.str "out.jpg")]))
      ⟨Except.ok (), Except.error (Thrown.err "Input file is missing")⟩).1 =
      errorResult "Failed to optimize image: Input file is missing" := by
  constructor
  · exact (tool_failure_returns_isError_result.1 (JSValue.obj
      [("url", JSValue.str "http://bad.example/x.png"),
       ("outputPath", JSValue.str "./out/x.png")])
      ⟨Except.ok (), Except.error (Thrown.err "timeout of 30000ms exceeded"), Except.ok ()⟩
      ⟨Except.ok (), Except.ok ()⟩ (Thrown.err "timeout of 30000ms exceeded")
      (by decide) rfl).2.1
  · exact (tool_failure_returns_isError_result.2 (JSValue.obj
      [("inputPath", JSValue.str "missing.jpg"), ("outputPath", JSValue.str "out.jpg")])
      ⟨Except.ok (), Except.ok [], Except.ok ()⟩
      ⟨Except.ok (), Except.error (Thrown.err "Input file is missing")⟩
      (Thrown.err "Input file is missing") (by decide) rfl).2.1

/-- C5 counterexample: for the validated request with `width` present
with value `0` (and `height` absent), the handler applies no resize
step at all, and on a 400×200 source the output keeps width 400, which
does not fit inside the provided bounding box of width 0 — refuting the
claim that any present dimension triggers a bounding-box resize. -/
theorem resize_zero_width_counterexample :
    (optimizePipeline ⟨"in.jpg", "out.jpg", some 0, none, none⟩).resize = none ∧
    sharpOutputDims 400 200 (optimizePipeline ⟨"in.jpg", "out.jpg", some 0, none, none⟩) =
      (400, 200) ∧
    ¬(400 ≤ (0 : Int).toNat) := by
  refine ⟨rfl, rfl, by decide⟩

/-- C5 amended: for every validated `OptimizeRequest` in which `width`
or `height` is present *and nonzero* (JS-truthy), the handler applies a
resize step with the provided dimensions, `fit: 'inside'` and
`withoutEnlargement: true`, so the output fits inside the bounding box
(each provided bound, clamped at 0 for negatives) and never exceeds the
source's original dimensions; when neither `width` nor `height` is
present and nonzero, no resize step is applied. -/
theorem resize_requires_truthy_dimension (args : OptimizeImageArgs) (srcW srcH : Nat)
    (hW : 0 < srcW) (hH : 0 < srcH) :
    ((jsOptTruthy args.width || jsOptTruthy args.height) = true →
      (optimizePipeline args).resize =
        some ⟨args.width, args.height, "inside", true⟩ ∧
      (sharpOutputDims srcW srcH (optimizePipeline args)).1 ≤ srcW ∧
      (sharpOutputDims srcW srcH (optimizePipeline args)).2 ≤ srcH ∧
      (∀ wv, args.width = some wv →
        (sharpOutputDims srcW srcH (optimizePipeline args)).1 ≤ wv.toNat) ∧
      (∀ hv, args.height = some hv →
        (sharpOutputDims srcW srcH (optimizePipeline args)).2 ≤ hv.toNat)) ∧
    ((jsOptTruthy args.width || jsOptTruthy args.height) = false →
      (optimizePipeline args).resize = none ∧
      sharpOutputDims srcW srcH (optimizePipeline args) = (srcW, srcH)) := by
  constructor
  · intro hcond
    have hres : (optimizePipeline args).resize =
        some ⟨args.width, args.height, "inside", true⟩ := by
      rw [optimizePipeline_resize, if_pos hcond]
    have hdims : sharpOutputDims srcW srcH (optimizePipeline args) =
        fitInsideDims srcW srcH args.width args.height := by
      simp only [sharpOutputDims, hres]
    obtain ⟨b1, b2, b3, b4⟩ := fitInsideDims_bounds srcW srcH args.width args.height hW hH
    refine ⟨hres, ?_, ?_, ?_, ?_⟩
    · rw [hdims]; exact b1
    · rw [hdims]; exact b2
    · intro wv hwv; rw [hdims]; exact b3 wv hwv
    · intro hv hhv; rw [hdims]; exact b4 hv hhv
  · intro hcond
    have hres : (optimizePipeline args).resize = none := by
      rw [optimizePipeline_resize, if_neg (by simp [hcond])]
    exact ⟨hres, by simp only [sharpOutputDims, hres]⟩

/-- C5 witness: `width=100` on a 400×200 source is configured as an
inside-fit resize and the output width stays within the box. -/
theorem resize_requires_truthy_dimension_witness :
    (optimizePipeline ⟨"in.jpg", "out.jpg", some 100, none, none⟩).resize =
      some ⟨some 100, none, "inside", true⟩ ∧
    (sharpOutputDims 400 200
      (optimizePipeline ⟨"in.jpg", "out.jpg", some 100, none, none⟩)).1 ≤
      (100 : Int).toNat := by
  have h := (resize_requires_truthy_dimension ⟨"in.jpg", "out.jpg", some 100, none, none⟩
    400 200 (by decide) (by decide)).1 (by decide)
  exact ⟨h.1, h.2.2.2.1 100 rfl⟩

/-- C6 counterexample: for the validated request with `quality` present
with value `0`, the handler applies no encoder quality setting at all —
refuting the claim that any present quality value is applied. -/
theorem quality_zero_counterexample :
    (optimizePipeline ⟨"in.jpg", "out.jpg", none, none, some 0⟩).jpegQuality = none ∧
    (optimizePipeline ⟨"in.jpg", "out.jpg", none, none, some 0⟩).webpQuality = none ∧
    (optimizePipeline ⟨"in.jpg", "out.jpg", none, none, some 0⟩).jpegQuality ≠ some 0 := by
  refine ⟨rfl, rfl, by decide⟩

/-- C6 amended: for every validated `OptimizeRequest` in which `quality`
is present *and nonzero* (JS-truthy), the handler applies that value as
the encoding quality for both the JPEG and the WebP output encoders;
when the output is not ultimately encoded as JPEG or WebP, the quality
setting has no effect on the written file. -/
theorem quality_requires_truthy_value (args : OptimizeImageArgs) :
    (jsOptTruthy args.quality = true →
      (optimizePipeline args).jpegQuality = args.quality ∧
      (optimizePipeline args).webpQuality = args.quality) ∧
    (jsOptTruthy args.quality = false →
      (optimizePipeline args).jpegQuality = none ∧
      (optimizePipeline args).webpQuality = none) ∧
    (∀ fmt : ImgFormat, fmt ≠ ImgFormat.jpeg → fmt ≠ ImgFormat.webp →
      qualityEffective fmt (optimizePipeline args) = none) := by
  refine ⟨?_, ?_, ?_⟩
  · intro hq
    rw [optimizePipeline_jpegQuality, optimizePipeline_webpQuality, if_pos hq]
    exact ⟨rfl, rfl⟩
  · intro hq
    rw [optimizePipeline_jpegQuality, optimizePipeline_webpQuality,
      if_neg (by simp [hq])]
    exact ⟨rfl, rfl⟩
  · intro fmt h1 h2
    cases fmt with
    | jpeg => exact absurd rfl h1
    | webp => exact absurd rfl h2
    | png => rfl
    | other => rfl

/-- C6 witness: `quality=80` is applied to both encoders and has no
effect on a PNG-encoded output. -/
theorem quality_requires_truthy_value_witness :
    (optimizePipeline ⟨"in.jpg", "out.png", none, none, some 80⟩).jpegQuality = some 80 ∧
    (optimizePipeline ⟨"in.jpg", "out.png", none, none, some 80⟩).webpQuality = some 80 ∧
    qualityEffective ImgFormat.png
      (optimizePipeline ⟨"in.jpg", "out.png", none, none, some 80⟩) = none := by
  have h := quality_requires_truthy_value ⟨"in.jpg", "out.png", none, none, some 80⟩
  exact ⟨(h.1 (by decide)).1, (h.1 (by decide)).2,
    h.2.2 ImgFormat.png (by decide) (by decide)⟩

/-- C8: the listing operation returns the same two tool descriptors
(`download_image` and `optimize_image`, with the declared quality bounds
1–100) at any position of any request history, independent of prior
calls; it produces a listing (never a protocol error) and has no
effects. -/
theorem list_tools_constant_catalogue (pre post : List Request) :
    (serve (pre ++ Request.listTools :: post))[pre.length]? =
      some (Response.listing [downloadToolDescr, optimizeToolDescr]) ∧
    handleRequest Request.listTools = Response.listing toolCatalogue ∧
    toolCatalogue = [downloadToolDescr, optimizeToolDescr] ∧
    optimizeToolDescr.inputSchema.properties.find? (fun p => p.name == "quality") =
      some ⟨"quality", "number", "JPEG/WebP quality (1-100)", some 1, some 100⟩ := by
  refine ⟨?_, rfl, rfl, rfl⟩
  have h : (pre ++ Request.listTools :: post)[pre.length]? = some Request.listTools := by
    rw [List.getElem?_append_right (Nat.le_refl _)]
    simp
  show (List.map handleRequest (pre ++ Request.listTools :: post))[pre.length]? = _
  rw [List.getElem?_map, h]
  rfl

/-- C9: in a validated `OptimizeRequest`, a `width`, `height` or
`quality` equal to `0` is treated as absent — `width=0` with `height`
absent or `0` yields no resize step, `quality=0` sets no encoder
quality — even though `0` passes argument validation as a number. -/
theorem zero_optional_fields_treated_absent :
    (∀ args : OptimizeImageArgs, args.width = some 0 →
      (args.height = none ∨ args.height = some 0) →
      (optimizePipeline args).resize = none) ∧
    (∀ args : OptimizeImageArgs, args.quality = some 0 →
      (optimizePipeline args).jpegQuality = none ∧
      (optimizePipeline args).webpQuality = none) ∧
    isOptimizeImageArgs (JSValue.obj [("inputPath", JSValue.str "in.jpg"),
      ("outputPath", JSValue.str "out.jpg"), ("width", JSValue.num 0),
      ("height", JSValue.num 0), ("quality", JSValue.num 0)]) = true := by
  refine ⟨?_, ?_, by decide⟩
  · intro args hw hh
    have hwf : jsOptTruthy args.width = false := by rw [hw]; rfl
    have hhf : jsOptTruthy args.height = false := by
      cases hh with
      | inl h => rw [h]; rfl
      | inr h => rw [h]; rfl
    rw [optimizePipeline_resize, if_neg (by simp [hwf, hhf])]
  · intro args hq
    have hqf : jsOptTruthy args.quality = false := by rw [hq]; rfl
    rw [optimizePipeline_jpegQuality, optimizePipeline_webpQuality,
      if_neg (by simp [hqf])]
    exact ⟨rfl, rfl⟩

/-- C9 witness: all three optional fields set to `0` produce a pipeline
with no resize step and no encoder quality. -/
theorem zero_optional_fields_treated_absent_witness :
    (optimizePipeline ⟨"in.jpg", "out.jpg", some 0, some 0, some 0⟩).resize = none ∧
    (optimizePipeline ⟨"in.jpg", "out.jpg", some 0, some 0, some 0⟩).jpegQuality = none := by
  exact ⟨zero_optional_fields_treated_absent.1 _ rfl (Or.inr rfl),
    (zero_optional_fields_treated_absent.2.1 _ rfl).1⟩

/-- C10: when a handler fails after its directory-creation step
succeeded, the error branch returns the `isError` result without
undoing anything: the created parent directory is still in the trace of
performed effects (the failure path is not atomic). -/
theorem created_dirs_persist_after_failure :
    (∀ (args : DownloadImageArgs) (w : DownloadWorld) (t : Thrown),
      w.ensureDirResult = Except.ok () →
      downloadFirstFailure w = some t →
      (handleDownloadImage args w).1.isError = some true ∧
      dirname args.outputPath ∈ dirsCreated (handleDownloadImage args w).2) ∧
    (∀ (args : OptimizeImageArgs) (w : OptimizeWorld) (t : Thrown),
      w.ensureDirResult = Except.ok () →
      optimizeFirstFailure w = some t →
      (handleOptimizeImage args w).1.isError = some true ∧
      dirname args.outputPath ∈ dirsCreated (handleOptimizeImage args w).2) := by
  constructor
  · intro args w t hd hf
    obtain ⟨ed, hr, wr⟩ := w
    simp only at hd
    subst hd
    cases hr <;> cases wr <;>
      simp_all [handleDownloadImage, downloadFirstFailure, dirsCreated,
        Effect.createdDir, errorResult, List.filterMap]
  · intro args w t hd hf
    obtain ⟨ed, tf⟩ := w
    simp only at hd
    subst hd
    cases tf <;>
      simp_all [handleOptimizeImage, optimizeFirstFailure, dirsCreated,
        Effect.createdDir, errorResult, List.filterMap]

/-- C10 witness: a download whose fetch fails and an optimize whose
`toFile` fails both leave the created output directory in the trace. -/
theorem created_dirs_persist_after_failure_witness :
    ((handleDownloadImage ⟨"http://x/a.png", "./out/a.png"⟩
        ⟨Except.ok (), Except.error (Thrown.err "boom"), Except.ok ()⟩).1.isError =
      some true ∧
      "./out" ∈ dirsCreated (handleDownloadImage ⟨"http://x/a.png", "./out/a.png"⟩
        ⟨Except.ok (), Except.error (Thrown.err "boom"), Except.ok ()⟩).2) ∧
    ((handleOptimizeImage ⟨"in.jpg", "./opt/out.jpg", none, none, none⟩
        ⟨Except.ok (), Except.error (Thrown.err "bad input")⟩).1.isError = some true ∧
      "./opt" ∈ dirsCreated (handleOptimizeImage ⟨"in.jpg", "./opt/out.jpg", none, none, none⟩
        ⟨Except.ok (), Except.error (Thrown.err "bad input")⟩).2) := by
  constructor
  · exact created_dirs_persist_after_failure.1 ⟨"http://x/a.png", "./out/a.png"⟩
      ⟨Except.ok (), Except.error (Thrown.err "boom"), Except.ok ()⟩
      (Thrown.err "boom") rfl rfl
  · exact created_dirs_persist_after_failure.2 ⟨"in.jpg", "./opt/out.jpg", none, none, none⟩
      ⟨Except.ok (), Except.error (Thrown.err "bad input")⟩
      (Thrown.err "bad input") rfl rfl

end ImageDownloader
